import Mathlib

/-!
Verification of the esphome zero_cross_relay component.

Part 1 embeds the Python configuration shim of src/__init__.py: the
configuration schema (CONFIG_SCHEMA), its validation semantics, and the
code-generation function to_code. Raw GPIO pin values such as the string
GPIO3 are modelled by their pin number; configuration keys by an inductive
type; the external esphome pin validators (pins.gpio_input_pin_schema,
pins.gpio_output_pin_schema) by functions producing a pin configuration
with the corresponding mode flag set.

Part 2 models, from the specification alone, the firmware core that the
shim wires up but whose source is absent from the repository: the Edge
Detector, Period Estimator, Relay Scheduler and Statistics Counter.
-/

/-- The configuration keys of the component: the generated ID key and the
two pin keys declared in CONFIG_SCHEMA. -/
inductive ConfigKey
  | id
  | zero_cross_pin
  | relay_output_pin
deriving DecidableEq

/-- A raw pin value as written in a YAML configuration; the string GPIOn is
modelled by its pin number n. -/
structure RawPin where
  number : Nat
deriving DecidableEq

/-- A validated pin configuration as produced by the esphome pin schemas:
the pin number plus the input/output mode flags the schema establishes. -/
structure PinConfig where
  number : Nat
  mode_input : Bool
  mode_output : Bool
deriving DecidableEq

/-- Model of the external validator pins.gpio_input_pin_schema: binds the
pin in input mode. -/
def gpio_input_pin_schema (p : RawPin) : Option PinConfig :=
  some { number := p.number, mode_input := true, mode_output := false }

/-- Model of the external validator pins.gpio_output_pin_schema: binds the
pin in output mode. -/
def gpio_output_pin_schema (p : RawPin) : Option PinConfig :=
  some { number := p.number, mode_input := false, mode_output := true }

/-- The kinds of validators appearing in CONFIG_SCHEMA. -/
inductive ValidatorKind
  | declareIdValidator
  | gpioInputValidator
  | gpioOutputValidator
deriving DecidableEq

/-- One entry of the schema dictionary: the key, its default raw value when
the key is optional with a default, and its validator. -/
structure SchemaEntry where
  key : ConfigKey
  pinDefault : Option RawPin
  validator : ValidatorKind
deriving DecidableEq

/-- Default of the zero_cross_pin key in the source: the string GPIO3. -/
def ZERO_CROSS_PIN_DEFAULT : RawPin := { number := 3 }

/-- Default of the relay_output_pin key in the source: the string GPIO4. -/
def RELAY_OUTPUT_PIN_DEFAULT : RawPin := { number := 4 }

/-- The component configuration schema of src/__init__.py: the generated ID
entry (cv.GenerateID with cv.declare_id), the optional zero_cross_pin
entry defaulting to GPIO3 validated by the GPIO input pin schema, and the
optional relay_output_pin entry defaulting to GPIO4 validated by the GPIO
output pin schema. The extension by cv.COMPONENT_SCHEMA mixes in keys of
the external framework and is outside the component's own declarations. -/
def CONFIG_SCHEMA : List SchemaEntry :=
  [ { key := ConfigKey.id, pinDefault := none,
      validator := ValidatorKind.declareIdValidator },
    { key := ConfigKey.zero_cross_pin, pinDefault := some ZERO_CROSS_PIN_DEFAULT,
      validator := ValidatorKind.gpioInputValidator },
    { key := ConfigKey.relay_output_pin, pinDefault := some RELAY_OUTPUT_PIN_DEFAULT,
      validator := ValidatorKind.gpioOutputValidator } ]

/-- A raw configuration value: either an ID value or a raw pin value. -/
inductive RawValue
  | idVal (n : Nat)
  | pinVal (p : RawPin)
deriving DecidableEq

/-- A raw user configuration: a partial map from configuration keys to raw
values; a key mapped to none is omitted from the YAML. -/
abbrev RawConfig := ConfigKey → Option RawValue

/-- A validated configuration value. -/
inductive ConfigValue
  | idValue (n : Nat)
  | pinValue (p : PinConfig)
deriving DecidableEq

/-- The ID fabricated by cv.GenerateID when the user supplies none. -/
def generatedId : Nat := 0

/-- Runs one validator of the schema on a raw value. -/
def runValidator : ValidatorKind → RawValue → Option ConfigValue
  | ValidatorKind.declareIdValidator, RawValue.idVal n =>
      some (ConfigValue.idValue n)
  | ValidatorKind.gpioInputValidator, RawValue.pinVal p =>
      (gpio_input_pin_schema p).map ConfigValue.pinValue
  | ValidatorKind.gpioOutputValidator, RawValue.pinVal p =>
      (gpio_output_pin_schema p).map ConfigValue.pinValue
  | _, _ => none

/-- The raw value an omitted key falls back to: the GenerateID entry
fabricates an ID, the optional pin entries use their declared default. -/
def entryDefault (e : SchemaEntry) : Option RawValue :=
  match e.validator with
  | ValidatorKind.declareIdValidator => some (RawValue.idVal generatedId)
  | _ => e.pinDefault.map RawValue.pinVal

/-- Validates one schema entry against a raw configuration: the supplied
value if present, the entry's default otherwise, run through the entry's
validator. -/
def validateEntry (raw : RawConfig) (e : SchemaEntry) : Option ConfigValue :=
  match raw e.key with
  | some v => runValidator e.validator v
  | none =>
      match entryDefault e with
      | some v => runValidator e.validator v
      | none => none

/-- A validated configuration, as passed to to_code. -/
structure Config where
  id : Nat
  zero_cross_pin : PinConfig
  relay_output_pin : PinConfig
deriving DecidableEq

/-- Validation of a raw configuration against CONFIG_SCHEMA: every entry of
the schema must validate, and the results are assembled into a Config. -/
def validateConfig (raw : RawConfig) : Option Config :=
  match CONFIG_SCHEMA.map (validateEntry raw) with
  | [some (ConfigValue.idValue n), some (ConfigValue.pinValue zc),
     some (ConfigValue.pinValue rp)] =>
      some { id := n, zero_cross_pin := zc, relay_output_pin := rp }
  | _ => none

/-- The raw configuration in which every key is omitted. -/
def emptyRawConfig : RawConfig := fun _ => none

/-- The configuration obtained by validating the empty raw configuration:
generated ID, GPIO3 bound as input, GPIO4 bound as output. -/
def defaultConfig : Config :=
  { id := generatedId,
    zero_cross_pin := { number := 3, mode_input := true, mode_output := false },
    relay_output_pin := { number := 4, mode_input := false, mode_output := true } }

/-- A C++ pin expression built by cg.gpio_pin_expression. -/
structure PinExpr where
  pin : PinConfig
deriving DecidableEq

/-- Model of cg.gpio_pin_expression: builds the pin expression for a
validated pin configuration. -/
def gpio_pin_expression (p : PinConfig) : PinExpr := { pin := p }

/-- The statements to_code emits, in order: cg.new_Pvariable,
cg.register_component, and the two cg.add calls for the pin setters. -/
inductive Stmt
  | newPvariable (id : Nat)
  | registerComponent (id : Nat)
  | addSetZeroCrossPin (id : Nat) (e : PinExpr)
  | addSetRelayOutputPin (id : Nat) (e : PinExpr)
deriving DecidableEq

/-- Whether a statement is one of the two pin-assignment calls. -/
def Stmt.isPinAssignment : Stmt → Bool
  | Stmt.addSetZeroCrossPin _ _ => true
  | Stmt.addSetRelayOutputPin _ _ => true
  | _ => false

/-- Whether a statement creates the component variable. -/
def Stmt.isNewPvariable : Stmt → Bool
  | Stmt.newPvariable _ => true
  | _ => false

/-- Whether a statement registers the component. -/
def Stmt.isRegisterComponent : Stmt → Bool
  | Stmt.registerComponent _ => true
  | _ => false

/-- Whether a statement is the set_zero_cross_pin call. -/
def Stmt.isSetZeroCross : Stmt → Bool
  | Stmt.addSetZeroCrossPin _ _ => true
  | _ => false

/-- Whether a statement is the set_relay_output_pin call. -/
def Stmt.isSetRelayOutput : Stmt → Bool
  | Stmt.addSetRelayOutputPin _ _ => true
  | _ => false

/-- The code-generation function to_code of src/__init__.py: creates the
component variable from the config ID, registers it as a component, then
emits set_zero_cross_pin with the expression of the zero_cross_pin config
and set_relay_output_pin with the expression of the relay_output_pin
config. -/
def to_code (config : Config) : List Stmt :=
  [ Stmt.newPvariable config.id,
    Stmt.registerComponent config.id,
    Stmt.addSetZeroCrossPin config.id (gpio_pin_expression config.zero_cross_pin),
    Stmt.addSetRelayOutputPin config.id (gpio_pin_expression config.relay_output_pin) ]

/-- Modelled from the spec: the state of the Edge Detector (section 4.1),
whose source is absent from the repository. It holds the timestamp of the
last accepted rising edge (none before any edge was accepted), the running
edge_count, and the next edge_id to assign. -/
structure EdgeDetectorState where
  last_accepted_timestamp : Option Nat
  edge_count : Nat
  next_edge_id : Nat
deriving DecidableEq

/-- Modelled from the spec: an Edge Event, with a monotonic timestamp and a
monotonically increasing edge_id (section 3). -/
structure EdgeEvent where
  timestamp : Nat
  edge_id : Nat
deriving DecidableEq

/-- Modelled from the spec: on_raw_signal of the Edge Detector
(section 4.1), whose source is absent from the repository. A rising edge
is accepted only if timestamp minus last_accepted_timestamp is at least
debounce_ticks; the first rising edge is always accepted. An accepted edge
produces an Edge Event, increments edge_count and updates
last_accepted_timestamp; everything else is silently absorbed. -/
def on_raw_signal (debounce_ticks : Nat) (s : EdgeDetectorState)
    (level : Bool) (timestamp : Nat) : EdgeDetectorState × Option EdgeEvent :=
  if level then
    match s.last_accepted_timestamp with
    | none =>
        ({ last_accepted_timestamp := some timestamp,
           edge_count := s.edge_count + 1,
           next_edge_id := s.next_edge_id + 1 },
         some { timestamp := timestamp, edge_id := s.next_edge_id })
    | some la =>
        if debounce_ticks ≤ timestamp - la then
          ({ last_accepted_timestamp := some timestamp,
             edge_count := s.edge_count + 1,
             next_edge_id := s.next_edge_id + 1 },
           some { timestamp := timestamp, edge_id := s.next_edge_id })
        else (s, none)
  else (s, none)

/-- Modelled from the spec: the Period Estimate record of the Period
Estimator (sections 3 and 4.2), whose source is absent from the
repository: the half-cycle period estimate in ticks, the valid flag, and
the timestamp of the last consumed edge. -/
structure PeriodEstimate where
  half_cycle_ticks : Nat
  valid : Bool
  last_event_timestamp : Nat
deriving DecidableEq

/-- Modelled from the spec: the error kinds of section 7 that prediction
and scheduling calls can fail with. -/
inductive ZCError
  | NotReady
deriving DecidableEq

/-- Modelled from the spec: predict_next_crossing of the Period Estimator
(section 4.2), whose source is absent from the repository: returns
last_event.timestamp plus half_cycle_ticks when the estimate is valid,
else fails with NotReady. -/
def predict_next_crossing (pe : PeriodEstimate) (after_timestamp : Nat) :
    Except ZCError Nat :=
  if pe.valid then Except.ok (pe.last_event_timestamp + pe.half_cycle_ticks)
  else Except.error ZCError.NotReady

/-- Modelled from the spec: a Scheduled Toggle of the Relay Scheduler
(section 3): the instant the relay is to be toggled and the target
state. -/
structure ScheduledToggle where
  target_timestamp : Nat
  target_state : Bool
deriving DecidableEq

/-- Modelled from the spec: the Relay Scheduler state (section 4.3), whose
source is absent from the repository. The pending toggles are kept as a
list so that the at-most-one invariant is a theorem rather than a
consequence of the representation; the scheduler is IDLE when the list is
empty and ARMED when it is nonempty. -/
structure RelayScheduler where
  pending : List ScheduledToggle
deriving DecidableEq

/-- Modelled from the spec: request of the Relay Scheduler (section 4.3),
whose source is absent from the repository. When the Period Estimator is
valid it cancels any pending toggle and arms a single new one at the
predicted crossing plus the configured phase offset (cancel-and-replace,
last-write-wins); when not valid it fails with NotReady. -/
def request (pe : PeriodEstimate) (phase_offset : Nat) (sch : RelayScheduler)
    (desired_state : Bool) (now : Nat) : Except ZCError RelayScheduler :=
  match predict_next_crossing pe now with
  | Except.ok t =>
      Except.ok { pending := [{ target_timestamp := t + phase_offset,
                                target_state := desired_state }] }
  | Except.error e => Except.error e

/-- Modelled from the spec: the firing callback of the Relay Scheduler
(section 4.3), whose source is absent from the repository: every pending
toggle whose target instant has been reached fires, producing a relay
toggle action and leaving the scheduler IDLE for it. -/
def fireDue (sch : RelayScheduler) (now : Nat) :
    RelayScheduler × List (Nat × Bool) :=
  ({ pending := sch.pending.filter (fun g => !decide (g.target_timestamp ≤ now)) },
   (sch.pending.filter (fun g => decide (g.target_timestamp ≤ now))).map
     (fun g => (g.target_timestamp, g.target_state)))

/-- Modelled from the spec: the operations driving the Relay Scheduler: a
request call from the main-loop context and a timer firing tick. -/
inductive SchedulerOp
  | reqOp (desired_state : Bool) (now : Nat)
  | fireOp (now : Nat)
deriving DecidableEq

/-- Modelled from the spec: one step of the Relay Scheduler under an
operation, returning the new state and the relay toggle actions emitted.
A request that fails with NotReady leaves the state unchanged and
schedules nothing. -/
def schedulerStep (pe : PeriodEstimate) (phase_offset : Nat)
    (sch : RelayScheduler) : SchedulerOp → RelayScheduler × List (Nat × Bool)
  | SchedulerOp.reqOp b now =>
      match request pe phase_offset sch b now with
      | Except.ok s => (s, [])
      | Except.error _ => (sch, [])
  | SchedulerOp.fireOp now => fireDue sch now

/-- Modelled from the spec: running the Relay Scheduler over a sequence of
operations, collecting all emitted relay toggle actions in order. -/
def schedulerRun (pe : PeriodEstimate) (phase_offset : Nat)
    (sch : RelayScheduler) : List SchedulerOp → RelayScheduler × List (Nat × Bool)
  | [] => (sch, [])
  | op :: ops =>
      let r := schedulerStep pe phase_offset sch op
      let rest := schedulerRun pe phase_offset r.1 ops
      (rest.1, r.2 ++ rest.2)

/-- Modelled from the spec: the initial Relay Scheduler state, IDLE with no
pending toggle. -/
def initScheduler : RelayScheduler := { pending := [] }

/-- Modelled from the spec: the process-wide Counters of the Statistics
Counter (sections 3 and 4.4), whose source is absent from the
repository. -/
structure Counters where
  edge_count : Nat
  missed_crossing_count : Nat
deriving DecidableEq

/-- Modelled from the spec: the state the Statistics Counter operates on:
the counters together with the Period Estimator state it observes. -/
structure CoreState where
  counters : Counters
  estimate : PeriodEstimate
deriving DecidableEq

/-- Modelled from the spec: reset of the Statistics Counter (section 4.4),
whose source is absent from the repository: zeroes all counters without
affecting the Period Estimator. -/
def reset (cs : CoreState) : CoreState :=
  { cs with counters := { edge_count := 0, missed_crossing_count := 0 } }

/-- Modelled from the spec: the edge_count accessor of the Statistics
Counter (section 4.4); it returns the counter and the unmodified state. -/
def edge_count (cs : CoreState) : Nat × CoreState :=
  (cs.counters.edge_count, cs)

/-- Modelled from the spec: the missed_crossing_count accessor of the
Statistics Counter (section 4.4); it returns the counter and the
unmodified state. -/
def missed_crossing_count (cs : CoreState) : Nat × CoreState :=
  (cs.counters.missed_crossing_count, cs)

/-- Modelled from the spec: the frequency_hz accessor of the Statistics
Counter (section 4.4): ticks_per_second divided by twice the half-cycle
estimate when the estimate is valid, 0 if invalid; the state is returned
unmodified. -/
def frequency_hz (ticks_per_second : Nat) (cs : CoreState) : ℚ × CoreState :=
  (if cs.estimate.valid then
     (ticks_per_second : ℚ) / (2 * (cs.estimate.half_cycle_ticks : ℚ))
   else 0, cs)

/-- Helper: a raw value accepted by the GPIO input validator yields a pin
configuration with the input mode flag set. -/
theorem runValidator_input_mode (v : RawValue) (q : PinConfig)
    (h : runValidator ValidatorKind.gpioInputValidator v
          = some (ConfigValue.pinValue q)) : q.mode_input = true := by
  cases v with
  | idVal n => simp [runValidator] at h
  | pinVal p =>
      simp [runValidator, gpio_input_pin_schema] at h
      rw [h.symm]

/-- Helper: a raw value accepted by the GPIO output validator yields a pin
configuration with the output mode flag set. -/
theorem runValidator_output_mode (v : RawValue) (q : PinConfig)
    (h : runValidator ValidatorKind.gpioOutputValidator v
          = some (ConfigValue.pinValue q)) : q.mode_output = true := by
  cases v with
  | idVal n => simp [runValidator] at h
  | pinVal p =>
      simp [runValidator, gpio_output_pin_schema] at h
      rw [h.symm]

/-- Claim C1: the configuration schema declares, besides the generated ID
key, exactly the two user-facing keys zero_cross_pin and relay_output_pin,
in that order, and no others. -/
theorem config_schema_declares_exactly_two_pin_keys :
    CONFIG_SCHEMA.map SchemaEntry.key
      = [ConfigKey.id, ConfigKey.zero_cross_pin, ConfigKey.relay_output_pin] ∧
    (CONFIG_SCHEMA.filter (fun e => e.key != ConfigKey.id)).map SchemaEntry.key
      = [ConfigKey.zero_cross_pin, ConfigKey.relay_output_pin] := by
  constructor <;> rfl

/-- Claim C2: for every validated configuration, to_code emits exactly two
pin-assignment calls: set_zero_cross_pin with the expression built from
the zero_cross_pin config, then set_relay_output_pin with the expression
built from the relay_output_pin config. -/
theorem to_code_emits_exactly_two_pin_assignments (config : Config) :
    (to_code config).filter Stmt.isPinAssignment
      = [Stmt.addSetZeroCrossPin config.id
           (gpio_pin_expression config.zero_cross_pin),
         Stmt.addSetRelayOutputPin config.id
           (gpio_pin_expression config.relay_output_pin)] := by
  rfl

/-- Claim C3: a configuration that sets neither pin key validates to the
defaults: pin 3 (GPIO3) as the zero-cross sense input and pin 4 (GPIO4) as
the relay output. -/
theorem default_pins_are_gpio3_and_gpio4 :
    (validateConfig emptyRawConfig).map
        (fun c => (c.zero_cross_pin.number, c.relay_output_pin.number))
      = some (3, 4) := by
  rfl

/-- Claim C4: in every configuration accepted by the schema, the
zero-cross pin was accepted by the GPIO input pin schema (so it is bound
in input mode) and the relay pin by the GPIO output pin schema (so it is
bound in output mode). -/
theorem accepted_pins_satisfy_pin_schemas (raw : RawConfig) (c : Config)
    (h : validateConfig raw = some c) :
    c.zero_cross_pin.mode_input = true ∧ c.relay_output_pin.mode_output = true := by
  unfold validateConfig at h
  simp only [CONFIG_SCHEMA, List.map] at h
  rcases h1 : validateEntry raw
      { key := ConfigKey.id, pinDefault := none,
        validator := ValidatorKind.declareIdValidator } with _ | v1 <;>
    rcases h2 : validateEntry raw
      { key := ConfigKey.zero_cross_pin, pinDefault := some ZERO_CROSS_PIN_DEFAULT,
        validator := ValidatorKind.gpioInputValidator } with _ | v2 <;>
    rcases h3 : validateEntry raw
      { key := ConfigKey.relay_output_pin, pinDefault := some RELAY_OUTPUT_PIN_DEFAULT,
        validator := ValidatorKind.gpioOutputValidator } with _ | v3 <;>
    rw [h1, h2, h3] at h <;>
    try exact absurd h (by simp)
  cases v1 with
  | pinValue q => simp at h
  | idValue n =>
      cases v2 with
      | idValue m => simp at h
      | pinValue zc =>
          cases v3 with
          | idValue m => simp at h
          | pinValue rp =>
              simp at h
              have hin : zc.mode_input = true := by
                unfold validateEntry at h2
                rcases hr : raw ConfigKey.zero_cross_pin with _ | v
                · rw [hr] at h2
                  exact runValidator_input_mode _ zc (by simpa [entryDefault] using h2)
                · rw [hr] at h2
                  exact runValidator_input_mode v zc (by simpa using h2)
              have hout : rp.mode_output = true := by
                unfold validateEntry at h3
                rcases hr : raw ConfigKey.relay_output_pin with _ | v
                · rw [hr] at h3
                  exact runValidator_output_mode _ rp (by simpa [entryDefault] using h3)
                · rw [hr] at h3
                  exact runValidator_output_mode v rp (by simpa using h3)
              rw [h.symm]
              exact ⟨hin, hout⟩

/-- Witness for claim C4: the empty configuration validates to the default
configuration, whose pins satisfy the mode conclusions. -/
theorem accepted_pins_satisfy_pin_schemas_witness :
    defaultConfig.zero_cross_pin.mode_input = true ∧
    defaultConfig.relay_output_pin.mode_output = true :=
  accepted_pins_satisfy_pin_schemas emptyRawConfig defaultConfig (by rfl)

/-- Claim C9: a configuration omitting both pin keys is accepted: validation
succeeds with the defaults filled in, and to_code of the result still
emits both pin-setting calls. -/
theorem omitted_pin_keys_validate_and_emit :
    validateConfig emptyRawConfig = some defaultConfig ∧
    (to_code defaultConfig).filter Stmt.isPinAssignment
      = [Stmt.addSetZeroCrossPin generatedId
           (gpio_pin_expression defaultConfig.zero_cross_pin),
         Stmt.addSetRelayOutputPin generatedId
           (gpio_pin_expression defaultConfig.relay_output_pin)] := by
  constructor <;> rfl

/-- Claim C10: to_code creates exactly one component variable, from the
config's ID; the creation precedes the registration, the registration
precedes every pin-setting call, and the set_zero_cross_pin call precedes
the set_relay_output_pin call. -/
theorem to_code_creates_registers_then_sets_pins (config : Config) :
    (to_code config).filter Stmt.isNewPvariable
      = [Stmt.newPvariable config.id] ∧
    (to_code config).findIdx Stmt.isNewPvariable
      < (to_code config).findIdx Stmt.isRegisterComponent ∧
    (to_code config).findIdx Stmt.isRegisterComponent
      < (to_code config).findIdx Stmt.isPinAssignment ∧
    (to_code config).findIdx Stmt.isSetZeroCross
      < (to_code config).findIdx Stmt.isSetRelayOutput := by
  refine ⟨rfl, ?_, ?_, ?_⟩
  · show (0 : Nat) < 1
    decide
  · show (1 : Nat) < 2
    decide
  · show (2 : Nat) < 3
    decide

/-- Claim C5: two rising transitions closer than debounce_ticks apart
produce exactly one Edge Event — once the first is accepted the second is
rejected — and in general a rising edge is accepted only if its timestamp
minus last_accepted_timestamp is at least debounce_ticks. -/
theorem debounce_produces_exactly_one_event (d : Nat) (s : EdgeDetectorState)
    (t1 t2 : Nat) (h12 : t1 ≤ t2) (hclose : t2 - t1 < d)
    (hacc : ((on_raw_signal d s true t1).2).isSome = true) :
    (on_raw_signal d (on_raw_signal d s true t1).1 true t2).2 = none ∧
    ∀ s2 t la, s2.last_accepted_timestamp = some la →
      ((on_raw_signal d s2 true t).2).isSome = true → d ≤ t - la := by
  have hnd : ¬ d ≤ t2 - t1 := by omega
  constructor
  · rcases hc : s.last_accepted_timestamp with _ | la
    · simp [on_raw_signal, hc, hnd]
    · by_cases hd : d ≤ t1 - la
      · simp [on_raw_signal, hc, hd, hnd]
      · simp [on_raw_signal, hc, hd] at hacc
  · intro s2 t la hla h
    by_cases hd : d ≤ t - la
    · exact hd
    · simp [on_raw_signal, hla, hd] at h

/-- Witness for claim C5: with a two-tick debounce, a first rising edge at
tick 5 is accepted and a second at tick 6 produces no event. -/
theorem debounce_produces_exactly_one_event_witness :
    (on_raw_signal 2 (on_raw_signal 2
        { last_accepted_timestamp := none, edge_count := 0, next_edge_id := 0 }
        true 5).1 true 6).2 = none :=
  (debounce_produces_exactly_one_event 2
    { last_accepted_timestamp := none, edge_count := 0, next_edge_id := 0 }
    5 6 (by decide) (by decide) (by decide)).1

/-- Helper: one scheduler step preserves the at-most-one-pending bound. -/
theorem schedulerStep_pending_le (pe : PeriodEstimate) (off : Nat)
    (sch : RelayScheduler) (op : SchedulerOp) (h : sch.pending.length ≤ 1) :
    (schedulerStep pe off sch op).1.pending.length ≤ 1 := by
  cases op with
  | reqOp b now =>
      by_cases hv : pe.valid
      · simp [schedulerStep, request, predict_next_crossing, hv]
      · simp [schedulerStep, request, predict_next_crossing, hv]
        exact h
  | fireOp now => exact le_trans (List.length_filter_le _ _) h

/-- Helper: every state reached by running the scheduler from a state with
at most one pending toggle keeps at most one pending toggle. -/
theorem schedulerRun_pending_le (pe : PeriodEstimate) (off : Nat)
    (ops : List SchedulerOp) : ∀ sch : RelayScheduler,
    sch.pending.length ≤ 1 →
    (schedulerRun pe off sch ops).1.pending.length ≤ 1 := by
  induction ops with
  | nil => intro sch h; exact h
  | cons op ops ih =>
      intro sch h
      exact ih _ (schedulerStep_pending_le pe off sch op h)

/-- Claim C6: every reachable Relay Scheduler state has at most one pending
Scheduled Toggle, and a request for ON followed by a request for OFF
before either fires produces, when the timer fires, exactly one toggle,
to OFF (cancel-and-replace, last-write-wins). -/
theorem at_most_one_pending_and_last_write_wins (pe : PeriodEstimate)
    (off : Nat) (ops : List SchedulerOp) (now1 now2 fnow : Nat)
    (hv : pe.valid = true)
    (hf : pe.last_event_timestamp + pe.half_cycle_ticks + off ≤ fnow) :
    (schedulerRun pe off initScheduler ops).1.pending.length ≤ 1 ∧
    (schedulerRun pe off initScheduler
        [SchedulerOp.reqOp true now1, SchedulerOp.reqOp false now2,
         SchedulerOp.fireOp fnow]).2
      = [(pe.last_event_timestamp + pe.half_cycle_ticks + off, false)] := by
  constructor
  · exact schedulerRun_pending_le pe off ops initScheduler (by simp [initScheduler])
  · simp [schedulerRun, schedulerStep, request, predict_next_crossing, hv,
      fireDue, hf]

/-- Witness for claim C6: with a valid 100-tick half-cycle estimate whose
last edge was at tick 100, requesting ON at tick 250 then OFF at tick 260
and firing at tick 300 yields exactly one toggle, to OFF, at tick 200. -/
theorem at_most_one_pending_witness :
    (schedulerRun
        { half_cycle_ticks := 100, valid := true, last_event_timestamp := 100 }
        0 initScheduler
        [SchedulerOp.reqOp true 250, SchedulerOp.reqOp false 260,
         SchedulerOp.fireOp 300]).2
      = [(200, false)] :=
  (at_most_one_pending_and_last_write_wins
    { half_cycle_ticks := 100, valid := true, last_event_timestamp := 100 }
    0 [] 250 260 300 rfl (by decide)).2

/-- Claim C7: predict_next_crossing returns last_event_timestamp plus
half_cycle_ticks exactly when the estimate is valid and fails with
NotReady otherwise; request likewise fails with NotReady when the
estimate is not valid, with the scheduler state unchanged and no toggle
emitted. -/
theorem predict_and_request_fail_with_not_ready (pe : PeriodEstimate)
    (after_t now off : Nat) (sch : RelayScheduler) (b : Bool) :
    (pe.valid = true →
       predict_next_crossing pe after_t
         = Except.ok (pe.last_event_timestamp + pe.half_cycle_ticks)) ∧
    (pe.valid = false →
       predict_next_crossing pe after_t = Except.error ZCError.NotReady ∧
       request pe off sch b now = Except.error ZCError.NotReady ∧
       schedulerStep pe off sch (SchedulerOp.reqOp b now) = (sch, [])) := by
  constructor
  · intro hv
    simp [predict_next_crossing, hv]
  · intro hv
    refine ⟨?_, ?_, ?_⟩ <;>
      simp [predict_next_crossing, request, schedulerStep, hv]

/-- Witness for claim C7: with an invalid estimate, prediction fails with
NotReady. -/
theorem predict_not_ready_witness :
    predict_next_crossing
        { half_cycle_ticks := 100, valid := false, last_event_timestamp := 0 } 0
      = Except.error ZCError.NotReady :=
  ((predict_and_request_fail_with_not_ready
      { half_cycle_ticks := 100, valid := false, last_event_timestamp := 0 }
      0 0 0 initScheduler true).2 rfl).1

/-- Claim C8: reset zeroes edge_count and missed_crossing_count while
leaving the Period Estimate untouched; the accessors return the state
unmodified; and frequency_hz returns 0 when the estimate is invalid. -/
theorem reset_zeroes_counters_and_preserves_estimate (cs : CoreState)
    (tps : Nat) :
    (reset cs).estimate = cs.estimate ∧
    (reset cs).counters.edge_count = 0 ∧
    (reset cs).counters.missed_crossing_count = 0 ∧
    (edge_count cs).2 = cs ∧
    (missed_crossing_count cs).2 = cs ∧
    (frequency_hz tps cs).2 = cs ∧
    (cs.estimate.valid = false → (frequency_hz tps cs).1 = 0) := by
  refine ⟨rfl, rfl, rfl, rfl, rfl, rfl, ?_⟩
  intro h
  simp [frequency_hz, h]

/-- Witness for claim C8: on a concrete state with an invalid estimate,
frequency_hz reads 0. -/
theorem reset_zeroes_counters_witness :
    (frequency_hz 1000
      { counters := { edge_count := 5, missed_crossing_count := 2 },
        estimate := { half_cycle_ticks := 100, valid := false,
                      last_event_timestamp := 0 } }).1 = 0 :=
  (reset_zeroes_counters_and_preserves_estimate
    { counters := { edge_count := 5, missed_crossing_count := 2 },
      estimate := { half_cycle_ticks := 100, valid := false,
                    last_event_timestamp := 0 } } 1000).2.2.2.2.2.2 rfl
